import Mathlib

/-!
Shallow embedding of `src/Parallax.js` (j6s/Parallax.js).

The library moves the background image of a DOM element while the user
scrolls past it.  We model the DOM element, the browser window, the
configuration object passed to the `Parallax` constructor, and the
constructed object, using rationals for JavaScript numbers.
-/

namespace ParallaxJs

/-- A DOM element as the library reads and writes it: geometry plus the
two style properties the code touches. -/
structure Element where
  offsetTop : ℚ
  offsetHeight : ℚ
  backgroundPosition : String
  transition : String
  deriving Repr, DecidableEq

/-- The browser window state read by the library. -/
structure Window where
  innerHeight : ℚ
  innerWidth : ℚ
  pageYOffset : ℚ
  deriving Repr, DecidableEq

/-- The configuration object passed to the constructor.  Every field is
optional; `none` models an absent (`undefined`) property. -/
structure Cfg where
  element : Option Element
  startOffset : Option ℚ
  distance : Option ℚ
  start : Option ℚ
  stop : Option ℚ
  breakpoint : Option ℚ
  throttling : Option ℚ
  cssTrans : Option Bool
  deriving Repr, DecidableEq

/-- JavaScript `x || d` on an optional number: an absent property or the
falsy number `0` yields the default. -/
def jsOr (o : Option ℚ) (d : ℚ) : ℚ :=
  match o with
  | none => d
  | some v => if v = 0 then d else v

/-- JavaScript `x || d` on an optional boolean. -/
def jsOrBool (o : Option Bool) (d : Bool) : Bool :=
  match o with
  | none => d
  | some v => if v then v else d

/-- The constructed `Parallax` object: the fields the constructor writes
to `this`, plus a flag recording whether the scroll listener is
registered. -/
structure ParallaxObj where
  element : Element
  startOffset : ℚ
  distance : ℚ
  start : ℚ
  stop : ℚ
  breakpoint : ℚ
  throttling : ℚ
  cssTrans : Bool
  registered : Bool
  deriving Repr, DecidableEq

/-- Method getOffsetPercentage: linear progress of the element through the
viewport, from `src/Parallax.js` lines 105-116. -/
def getOffsetPercentage (w : Window) (p : ParallaxObj) : ℚ :=
  let scrollTop := w.pageYOffset
  let height := p.element.offsetHeight
  let windowHeight := w.innerHeight
  let offsetTop := p.element.offsetTop
  let lowerBound := offsetTop + height
  let upperBound := offsetTop - windowHeight
  let range := upperBound - lowerBound
  (scrollTop - lowerBound) / range

/-- Method doMovement, from lines 92-99: computes the (unused) `relativeOffset`
variable, then writes `"center " + offset + "px"` as the element's
background position. -/
def doMovement (w : Window) (p : ParallaxObj) : ParallaxObj :=
  let relativeOffset := w.pageYOffset
  let relativeOffset := if p.element.offsetTop < w.innerHeight
    then relativeOffset + p.element.offsetTop
    else relativeOffset
  let _ := relativeOffset
  let offset := p.startOffset - getOffsetPercentage w p * p.distance
  { p with element :=
      { p.element with backgroundPosition := "center " ++ toString offset ++ "px" } }

/-- Method parallax, from lines 81-86: gate on `start < pageYOffset < stop`. -/
def parallax (w : Window) (p : ParallaxObj) : ParallaxObj :=
  let absoluteOffset := w.pageYOffset
  if absoluteOffset > p.start ∧ absoluteOffset < p.stop then
    doMovement w p
  else
    p

/-- Method register, lines 121-123: adds the scroll listener (idempotent). -/
def register (p : ParallaxObj) : ParallaxObj :=
  { p with registered := true }

/-- Method unregister, lines 128-130: removes the scroll listener. -/
def unregister (p : ParallaxObj) : ParallaxObj :=
  { p with registered := false }

/-- The inner `handler` of `handleRegisters`, lines 138-144: it runs once
immediately and again (debounced) on every window resize. -/
def handleRegistersHandler (w : Window) (p : ParallaxObj) : ParallaxObj :=
  if w.innerWidth > p.breakpoint then register p else unregister p

/-- Method init, lines 62-76: run the register handler, write the initial
background position, optionally set the CSS transition, then parallax
once. -/
def init (w : Window) (p : ParallaxObj) : ParallaxObj :=
  let p := handleRegistersHandler w p
  let p := { p with element :=
    { p.element with backgroundPosition := "center " ++ toString p.startOffset ++ "px" } }
  let p := if p.cssTrans then
      { p with element :=
        { p.element with transition :=
            "background-position: " ++ toString (1 / p.throttling) ++ "s" } }
    else p
  parallax w p

/-- The body of the `Parallax` constructor before `init`, lines 22-55:
throws when no element is given, defaults and then overwrites the
`start`/`stop` properties of the caller's `cfg` object in place, and
copies the configuration to the new object.  Returns the new object
together with the mutated `cfg`. -/
def ParallaxCtor (w : Window) (cfg : Cfg) : Except String (ParallaxObj × Cfg) :=
  match cfg.element with
  | none => .error "parallax: at least element must be given"
  | some el =>
    let startBias := jsOr cfg.start 0
    let stopBias := jsOr cfg.stop 0
    let start := el.offsetTop - w.innerHeight + startBias
    let stop := el.offsetTop + el.offsetHeight
    let _ := stopBias
    let cfg := { cfg with start := some start, stop := some stop }
    let obj : ParallaxObj :=
      { element := el
        startOffset := jsOr cfg.startOffset 0
        distance := jsOr cfg.distance 200
        start := start
        stop := stop
        breakpoint := jsOr cfg.breakpoint 1024
        throttling := jsOr cfg.throttling 15
        cssTrans := jsOrBool cfg.cssTrans false
        registered := false }
    .ok (obj, cfg)

/-- The full constructor: the body above followed by `this.init()`. -/
def ParallaxNew (w : Window) (cfg : Cfg) : Except String (ParallaxObj × Cfg) :=
  match ParallaxCtor w cfg with
  | .error e => .error e
  | .ok (obj, cfg) => .ok (init w obj, cfg)

/-! Concrete states used to exercise the definitions: the example element
of the spec (`offsetTop = 1000`, `offsetHeight = 400`) seen through a
viewport of height 800, at scroll position 800. -/

/-- The spec's example element. -/
def elEx : Element :=
  { offsetTop := 1000, offsetHeight := 400, backgroundPosition := "", transition := "" }

/-- The spec's example viewport at scroll position 800. -/
def wEx : Window := { innerHeight := 800, innerWidth := 1280, pageYOffset := 800 }

/-- The same viewport at scroll position 200, the lower activation bound. -/
def wBound : Window := { innerHeight := 800, innerWidth := 1280, pageYOffset := 200 }

/-- The object the constructor builds from `elEx` with all defaults. -/
def pEx : ParallaxObj :=
  { element := elEx, startOffset := 0, distance := 200, start := 200, stop := 1400,
    breakpoint := 1024, throttling := 15, cssTrans := false, registered := true }

/-- Same object with the claim's example `startOffset = -50`. -/
def pEx50 : ParallaxObj := { pEx with startOffset := -50 }

/-- Follows the spec's words (§4.1) for `doMovement`: write
`offset = startOffset - ratio * distance` as the background position,
with no `relativeOffset` computation at all.  Used only to compare the
source's `doMovement` against the spec's description. -/
def doMovementSpec (w : Window) (p : ParallaxObj) : ParallaxObj :=
  let offset := p.startOffset - getOffsetPercentage w p * p.distance
  { p with element :=
      { p.element with backgroundPosition := "center " ++ toString offset ++ "px" } }

/-- The example viewport at scroll position 0, where the gate is closed. -/
def w0 : Window := { innerHeight := 800, innerWidth := 1280, pageYOffset := 0 }

/-- A configuration supplying only the element. -/
def cfgDefaults : Cfg :=
  { element := some elEx, startOffset := none, distance := none, start := none,
    stop := none, breakpoint := none, throttling := none, cssTrans := none }

/-- A configuration supplying no element at all. -/
def cfgNoElement : Cfg := { cfgDefaults with element := none }

/-- A configuration supplying the element and a stop bias of 100. -/
def cfgStopBias : Cfg := { cfgDefaults with stop := some 100 }

/-- The object `ParallaxNew w0 cfgDefaults` produces. -/
def objW : ParallaxObj :=
  { element := { offsetTop := 1000, offsetHeight := 400,
                 backgroundPosition := "center 0px", transition := "" },
    startOffset := 0, distance := 200, start := 200, stop := 1400,
    breakpoint := 1024, throttling := 15, cssTrans := false, registered := true }

/-- The mutated configuration `ParallaxNew w0 cfgDefaults` leaves behind. -/
def cfgW : Cfg := { cfgDefaults with start := some 200, stop := some 1400 }

/-- A zero-height element, for the degenerate-geometry claim. -/
def elZero : Element :=
  { offsetTop := 300, offsetHeight := 0, backgroundPosition := "", transition := "" }

/-- A zero-height viewport, for the degenerate-geometry claim. -/
def wZero : Window := { innerHeight := 0, innerWidth := 1280, pageYOffset := 100 }

/-- The example object attached to the zero-height element. -/
def pZero : ParallaxObj := { pEx with element := elZero }

/-- An element whose top coincides with the viewport height. -/
def elSame : Element :=
  { offsetTop := 800, offsetHeight := 400, backgroundPosition := "", transition := "" }

/-- A viewport of height 800 at scroll position 0. -/
def wSame : Window := { innerHeight := 800, innerWidth := 1280, pageYOffset := 0 }

/-- A configuration with `elSame` and an explicit start bias of 0. -/
def cfgSame : Cfg :=
  { element := some elSame, startOffset := none, distance := none, start := some 0,
    stop := none, breakpoint := none, throttling := none, cssTrans := none }

/-- The object `ParallaxNew wSame cfgSame` produces. -/
def obj1Same : ParallaxObj :=
  { element := { offsetTop := 800, offsetHeight := 400,
                 backgroundPosition := "center 0px", transition := "" },
    startOffset := 0, distance := 200, start := 0, stop := 1200,
    breakpoint := 1024, throttling := 15, cssTrans := false, registered := true }

/-- The mutated configuration `ParallaxNew wSame cfgSame` leaves behind. -/
def cfg1Same : Cfg := { cfgSame with start := some 0, stop := some 1200 }

/-! Helper lemmas: none of the methods ever writes the `start` or `stop`
fields. -/

theorem doMovement_start_eq (w : Window) (p : ParallaxObj) :
    (doMovement w p).start = p.start := rfl

theorem doMovement_stop_eq (w : Window) (p : ParallaxObj) :
    (doMovement w p).stop = p.stop := rfl

theorem parallax_start_eq (w : Window) (p : ParallaxObj) :
    (parallax w p).start = p.start := by
  by_cases h : w.pageYOffset > p.start ∧ w.pageYOffset < p.stop <;>
    simp [parallax, h, doMovement_start_eq]

theorem parallax_stop_eq (w : Window) (p : ParallaxObj) :
    (parallax w p).stop = p.stop := by
  by_cases h : w.pageYOffset > p.start ∧ w.pageYOffset < p.stop <;>
    simp [parallax, h, doMovement_stop_eq]

theorem handleRegistersHandler_start_eq (w : Window) (p : ParallaxObj) :
    (handleRegistersHandler w p).start = p.start := by
  by_cases h : w.innerWidth > p.breakpoint <;>
    simp [handleRegistersHandler, register, unregister, h]

theorem handleRegistersHandler_stop_eq (w : Window) (p : ParallaxObj) :
    (handleRegistersHandler w p).stop = p.stop := by
  by_cases h : w.innerWidth > p.breakpoint <;>
    simp [handleRegistersHandler, register, unregister, h]

theorem init_start_eq (w : Window) (p : ParallaxObj) :
    (init w p).start = p.start := by
  by_cases hw : w.innerWidth > p.breakpoint <;>
  by_cases hc : p.cssTrans <;>
    simp [init, handleRegistersHandler, register, unregister, hw, hc,
      parallax_start_eq]

theorem init_stop_eq (w : Window) (p : ParallaxObj) :
    (init w p).stop = p.stop := by
  by_cases hw : w.innerWidth > p.breakpoint <;>
  by_cases hc : p.cssTrans <;>
    simp [init, handleRegistersHandler, register, unregister, hw, hc,
      parallax_stop_eq]

/-- C2: for every scroll position and geometry, `getOffsetPercentage`
returns `(scrollTop - (offsetTop + height)) / ((offsetTop - windowHeight)
- (offsetTop + height))`; with positive height and window height it
returns 0 when `scrollTop = offsetTop + height` and 1 when
`scrollTop = offsetTop - windowHeight`. -/
theorem getOffsetPercentage_formula (w : Window) (p : ParallaxObj)
    (hh : 0 < p.element.offsetHeight) (hw : 0 < w.innerHeight) :
    getOffsetPercentage w p =
      (w.pageYOffset - (p.element.offsetTop + p.element.offsetHeight)) /
        ((p.element.offsetTop - w.innerHeight) -
          (p.element.offsetTop + p.element.offsetHeight)) ∧
    (w.pageYOffset = p.element.offsetTop + p.element.offsetHeight →
      getOffsetPercentage w p = 0) ∧
    (w.pageYOffset = p.element.offsetTop - w.innerHeight →
      getOffsetPercentage w p = 1) := by
  refine ⟨rfl, fun h => ?_, fun h => ?_⟩
  · simp [getOffsetPercentage, h]
  · have hne : (p.element.offsetTop - w.innerHeight) -
        (p.element.offsetTop + p.element.offsetHeight) ≠ 0 := by
      intro hc
      nlinarith
    show (w.pageYOffset - (p.element.offsetTop + p.element.offsetHeight)) /
        ((p.element.offsetTop - w.innerHeight) -
          (p.element.offsetTop + p.element.offsetHeight)) = 1
    rw [h]
    exact div_self hne

/-- Witness for C2 at the spec's example geometry. -/
theorem getOffsetPercentage_formula_witness :
    getOffsetPercentage wEx pEx =
      (wEx.pageYOffset - (pEx.element.offsetTop + pEx.element.offsetHeight)) /
        ((pEx.element.offsetTop - wEx.innerHeight) -
          (pEx.element.offsetTop + pEx.element.offsetHeight)) ∧
    (wEx.pageYOffset = pEx.element.offsetTop + pEx.element.offsetHeight →
      getOffsetPercentage wEx pEx = 0) ∧
    (wEx.pageYOffset = pEx.element.offsetTop - wEx.innerHeight →
      getOffsetPercentage wEx pEx = 1) :=
  getOffsetPercentage_formula wEx pEx (by norm_num [pEx, elEx]) (by norm_num [wEx])

/-- C4: `parallax` runs `doMovement` exactly when `start < s < stop`
strictly, and otherwise leaves the whole state (in particular the last
written background position) unchanged. -/
theorem parallax_gate (w : Window) (p : ParallaxObj) :
    (p.start < w.pageYOffset ∧ w.pageYOffset < p.stop →
      parallax w p = doMovement w p) ∧
    (w.pageYOffset ≤ p.start ∨ p.stop ≤ w.pageYOffset →
      parallax w p = p) := by
  constructor
  · intro h
    simp [parallax, h.1, h.2]
  · intro h
    have hn : ¬(w.pageYOffset > p.start ∧ w.pageYOffset < p.stop) := by
      rcases h with h | h
      · exact fun hc => absurd hc.1 (not_lt.mpr h)
      · exact fun hc => absurd hc.2 (not_lt.mpr h)
    simp [parallax, hn]

/-- Witness for C4: scroll position 800 lies strictly inside (200, 1400)
and triggers the movement; the boundary position 200 leaves the state
untouched. -/
theorem parallax_gate_witness :
    parallax wEx pEx = doMovement wEx pEx ∧ parallax wBound pEx = pEx :=
  ⟨(parallax_gate wEx pEx).1 (by norm_num [wEx, pEx]),
   (parallax_gate wBound pEx).2 (by norm_num [wBound, pEx])⟩

/-- C8: the resize/initial registration handler registers the scroll
listener exactly when the viewport width is strictly greater than the
breakpoint, and unregisters it when the width is less than or equal. -/
theorem handleRegisters_breakpoint (w : Window) (p : ParallaxObj) :
    (w.innerWidth > p.breakpoint → handleRegistersHandler w p = register p) ∧
    (w.innerWidth ≤ p.breakpoint → handleRegistersHandler w p = unregister p) ∧
    ((handleRegistersHandler w p).registered ↔ w.innerWidth > p.breakpoint) := by
  refine ⟨fun h => ?_, fun h => ?_, ?_⟩
  · simp [handleRegistersHandler, h]
  · simp [handleRegistersHandler, not_lt.mpr h]
  · by_cases h : w.innerWidth > p.breakpoint <;>
      simp [handleRegistersHandler, register, unregister, h]

/-- Witness for C8: width 1280 is above the default breakpoint 1024 and
registers; width 1024 exactly at the breakpoint unregisters. -/
theorem handleRegisters_breakpoint_witness :
    handleRegistersHandler wEx pEx = register pEx ∧
    handleRegistersHandler { wEx with innerWidth := 1024 } pEx =
      unregister pEx :=
  ⟨(handleRegisters_breakpoint wEx pEx).1 (by norm_num [wEx, pEx]),
   (handleRegisters_breakpoint { wEx with innerWidth := 1024 } pEx).2.1
     (by norm_num [wEx, pEx])⟩

theorem jsOr_some_self (v : ℚ) : jsOr (some v) 0 = v := by
  by_cases h : v = 0 <;> simp [jsOr, h]

theorem parallax_fields (w : Window) (p : ParallaxObj) :
    (parallax w p).startOffset = p.startOffset ∧
    (parallax w p).distance = p.distance ∧
    (parallax w p).breakpoint = p.breakpoint ∧
    (parallax w p).throttling = p.throttling ∧
    (parallax w p).cssTrans = p.cssTrans := by
  by_cases h : w.pageYOffset > p.start ∧ w.pageYOffset < p.stop <;>
    simp [parallax, doMovement, h]

theorem init_fields (w : Window) (p : ParallaxObj) :
    (init w p).startOffset = p.startOffset ∧
    (init w p).distance = p.distance ∧
    (init w p).breakpoint = p.breakpoint ∧
    (init w p).throttling = p.throttling ∧
    (init w p).cssTrans = p.cssTrans := by
  by_cases hw : w.innerWidth > p.breakpoint <;>
  by_cases hc : p.cssTrans <;>
    simp [init, handleRegistersHandler, register, unregister, hw, hc,
      parallax_fields]

/-- Shape of a successful construction: the object handed to `init` and
the mutated configuration, for any `cfg` that carries an element. -/
theorem parallaxNew_ok (w : Window) (cfg : Cfg) (el : Element)
    (hel : cfg.element = some el) :
    ParallaxNew w cfg = .ok
      (init w
        { element := el
          startOffset := jsOr cfg.startOffset 0
          distance := jsOr cfg.distance 200
          start := el.offsetTop - w.innerHeight + jsOr cfg.start 0
          stop := el.offsetTop + el.offsetHeight
          breakpoint := jsOr cfg.breakpoint 1024
          throttling := jsOr cfg.throttling 15
          cssTrans := jsOrBool cfg.cssTrans false
          registered := false },
       { cfg with start := some (el.offsetTop - w.innerHeight + jsOr cfg.start 0)
                  stop := some (el.offsetTop + el.offsetHeight) }) := by
  simp [ParallaxNew, ParallaxCtor, hel]

theorem parallaxNew_w0_eval : ParallaxNew w0 cfgDefaults = .ok (objW, cfgW) := by
  norm_num [ParallaxNew, ParallaxCtor, init, handleRegistersHandler, register,
    unregister, parallax, doMovement, jsOr, jsOrBool, cfgDefaults, elEx, w0,
    objW, cfgW]
  rfl

theorem parallaxNew_wSame_eval :
    ParallaxNew wSame cfgSame = .ok (obj1Same, cfg1Same) := by
  norm_num [ParallaxNew, ParallaxCtor, init, handleRegistersHandler, register,
    unregister, parallax, doMovement, jsOr, jsOrBool, cfgSame, elSame, wSame,
    obj1Same, cfg1Same]
  rfl

theorem parallaxNew_wSame_eval2 :
    ParallaxNew wSame cfg1Same = .ok (obj1Same, cfg1Same) := by
  norm_num [ParallaxNew, ParallaxCtor, init, handleRegistersHandler, register,
    unregister, parallax, doMovement, jsOr, jsOrBool, cfgSame, cfg1Same,
    elSame, wSame, obj1Same]
  rfl

/-- C9: the `relativeOffset` computation inside `doMovement` is dead
code — the method is extensionally equal to the spec's description,
which has no such computation, and the written background position is
exactly `startOffset - ratio * distance`. -/
theorem doMovement_relativeOffset_dead (w : Window) (p : ParallaxObj) :
    doMovement w p = doMovementSpec w p ∧
    (doMovement w p).element.backgroundPosition =
      "center " ++ toString (p.startOffset - getOffsetPercentage w p * p.distance)
        ++ "px" :=
  ⟨rfl, rfl⟩

/-- C3 counterexample: in the spec's example scenario (`offsetTop = 1000`,
`offsetHeight = 400`, `innerHeight = 800`, `scrollTop = 800`, defaults)
the code computes ratio 1/2 — not 3/4 — and writes `"center -100px"`,
not `"center -150px"`. -/
theorem doMovement_scenario_counterexample :
    getOffsetPercentage wEx pEx = 1/2 ∧
    getOffsetPercentage wEx pEx ≠ 3/4 ∧
    (doMovement wEx pEx).element.backgroundPosition = "center -100px" ∧
    (doMovement wEx pEx).element.backgroundPosition ≠ "center -150px" := by
  have hr : getOffsetPercentage wEx pEx = 1/2 := by
    norm_num [getOffsetPercentage, pEx, wEx, elEx]
  have h : pEx.startOffset - getOffsetPercentage wEx pEx * pEx.distance = -100 := by
    rw [hr]
    norm_num [pEx]
  have hbg : (doMovement wEx pEx).element.backgroundPosition = "center -100px" := by
    simp only [doMovement]
    rw [h]
    rfl
  refine ⟨hr, by rw [hr]; norm_num, hbg, by rw [hbg]; decide⟩

/-- C3 (amended): the pixel offset written by `doMovement` is linear in
the ratio, `offset = startOffset - ratio * distance`; with
`startOffset = -50`, `distance = 200`, ratio 1/2 the offset is -150; in
the spec's example scenario the ratio is 1/2 and the written style is
`"center -100px"`. -/
theorem doMovement_linear :
    (∀ w p, (doMovement w p).element.backgroundPosition =
      "center " ++ toString (p.startOffset - getOffsetPercentage w p * p.distance)
        ++ "px") ∧
    getOffsetPercentage wEx pEx50 = 1/2 ∧
    pEx50.startOffset - getOffsetPercentage wEx pEx50 * pEx50.distance = -150 ∧
    getOffsetPercentage wEx pEx = 1/2 ∧
    (doMovement wEx pEx).element.backgroundPosition = "center -100px" := by
  have hr50 : getOffsetPercentage wEx pEx50 = 1/2 := by
    norm_num [getOffsetPercentage, pEx50, pEx, wEx, elEx]
  have hr : getOffsetPercentage wEx pEx = 1/2 := by
    norm_num [getOffsetPercentage, pEx, wEx, elEx]
  have h : pEx.startOffset - getOffsetPercentage wEx pEx * pEx.distance = -100 := by
    rw [hr]
    norm_num [pEx]
  refine ⟨fun w p => rfl, hr50, ?_, hr, ?_⟩
  · rw [hr50]
    norm_num [pEx50, pEx]
  · simp only [doMovement]
    rw [h]
    rfl

/-- C6: the divisor of `getOffsetPercentage` equals
`-(offsetHeight + innerHeight)` and the division carries no guard: it is
non-zero whenever `offsetHeight + innerHeight ≠ 0`, and it degenerates
to a division by zero when both heights are zero. -/
theorem getOffsetPercentage_divisor (w : Window) (p : ParallaxObj) :
    getOffsetPercentage w p =
      (w.pageYOffset - (p.element.offsetTop + p.element.offsetHeight)) /
        (-(p.element.offsetHeight + w.innerHeight)) ∧
    (p.element.offsetHeight + w.innerHeight ≠ 0 →
      (p.element.offsetTop - w.innerHeight) -
        (p.element.offsetTop + p.element.offsetHeight) ≠ 0) ∧
    (p.element.offsetHeight = 0 → w.innerHeight = 0 →
      (p.element.offsetTop - w.innerHeight) -
        (p.element.offsetTop + p.element.offsetHeight) = 0) := by
  refine ⟨?_, fun h hc => h (by linarith), fun h1 h2 => by rw [h1, h2]; ring⟩
  show (w.pageYOffset - (p.element.offsetTop + p.element.offsetHeight)) /
      ((p.element.offsetTop - w.innerHeight) -
        (p.element.offsetTop + p.element.offsetHeight)) =
    (w.pageYOffset - (p.element.offsetTop + p.element.offsetHeight)) /
      (-(p.element.offsetHeight + w.innerHeight))
  congr 1
  ring

/-- Witness for C6: the example geometry has a non-zero divisor; the
zero-height element in the zero-height viewport makes the divisor zero. -/
theorem getOffsetPercentage_divisor_witness :
    ((pEx.element.offsetTop - wEx.innerHeight) -
      (pEx.element.offsetTop + pEx.element.offsetHeight) ≠ 0) ∧
    ((pZero.element.offsetTop - wZero.innerHeight) -
      (pZero.element.offsetTop + pZero.element.offsetHeight) = 0) :=
  ⟨(getOffsetPercentage_divisor wEx pEx).2.1 (by norm_num [pEx, elEx, wEx]),
   (getOffsetPercentage_divisor wZero pZero).2.2 (by norm_num [pZero, elZero])
     (by norm_num [wZero])⟩

/-- C5: after construction the stored stop bound equals
`offsetTop + offsetHeight` as read at construction time, and none of
`parallax`, `doMovement`, `register`, `unregister` or the resize handler
modifies the stored start or stop bounds. -/
theorem bounds_frozen (w : Window) (cfg : Cfg) (el : Element)
    (obj : ParallaxObj) (cfg2 : Cfg)
    (hel : cfg.element = some el)
    (h : ParallaxNew w cfg = .ok (obj, cfg2)) :
    obj.stop = el.offsetTop + el.offsetHeight ∧
    (∀ w2 : Window,
      (parallax w2 obj).start = obj.start ∧ (parallax w2 obj).stop = obj.stop ∧
      (doMovement w2 obj).start = obj.start ∧
      (doMovement w2 obj).stop = obj.stop ∧
      (handleRegistersHandler w2 obj).start = obj.start ∧
      (handleRegistersHandler w2 obj).stop = obj.stop) ∧
    (register obj).start = obj.start ∧ (register obj).stop = obj.stop ∧
    (unregister obj).start = obj.start ∧ (unregister obj).stop = obj.stop := by
  rw [parallaxNew_ok w cfg el hel] at h
  simp only [Except.ok.injEq, Prod.mk.injEq] at h
  obtain ⟨hobj, -⟩ := h
  refine ⟨?_, fun w2 => ⟨parallax_start_eq w2 obj, parallax_stop_eq w2 obj,
    doMovement_start_eq w2 obj, doMovement_stop_eq w2 obj,
    handleRegistersHandler_start_eq w2 obj, handleRegistersHandler_stop_eq w2 obj⟩,
    rfl, rfl, rfl, rfl⟩
  rw [← hobj, init_stop_eq]

/-- Witness for C5 at the example construction. -/
theorem bounds_frozen_witness :
    objW.stop = elEx.offsetTop + elEx.offsetHeight ∧
    (∀ w2 : Window,
      (parallax w2 objW).start = objW.start ∧ (parallax w2 objW).stop = objW.stop ∧
      (doMovement w2 objW).start = objW.start ∧
      (doMovement w2 objW).stop = objW.stop ∧
      (handleRegistersHandler w2 objW).start = objW.start ∧
      (handleRegistersHandler w2 objW).stop = objW.stop) ∧
    (register objW).start = objW.start ∧ (register objW).stop = objW.stop ∧
    (unregister objW).start = objW.start ∧ (unregister objW).stop = objW.stop :=
  bounds_frozen w0 cfgDefaults elEx objW cfgW rfl parallaxNew_w0_eval

/-- C7: construction throws exactly when no element is supplied; with an
element it succeeds, and every omitted option receives its default:
startOffset 0, distance 200, breakpoint 1024, throttling 15,
cssTrans false. -/
theorem ctor_error_iff_defaults (w : Window) (cfg : Cfg) :
    ((∃ e, ParallaxNew w cfg = .error e) ↔ cfg.element = none) ∧
    (∀ el, cfg.element = some el →
      ∃ obj cfg2, ParallaxNew w cfg = .ok (obj, cfg2)) ∧
    (∀ el obj cfg2, cfg.element = some el →
      ParallaxNew w cfg = .ok (obj, cfg2) →
      (cfg.startOffset = none → obj.startOffset = 0) ∧
      (cfg.distance = none → obj.distance = 200) ∧
      (cfg.breakpoint = none → obj.breakpoint = 1024) ∧
      (cfg.throttling = none → obj.throttling = 15) ∧
      (cfg.cssTrans = none → obj.cssTrans = false)) := by
  refine ⟨⟨fun ⟨e, he⟩ => ?_, fun hn =>
      ⟨"parallax: at least element must be given",
        by simp [ParallaxNew, ParallaxCtor, hn]⟩⟩,
    fun el hel => ⟨_, _, parallaxNew_ok w cfg el hel⟩,
    fun el obj cfg2 hel h => ?_⟩
  · cases hc : cfg.element with
    | none => rfl
    | some el =>
      rw [parallaxNew_ok w cfg el hc] at he
      simp at he
  · rw [parallaxNew_ok w cfg el hel] at h
    simp only [Except.ok.injEq, Prod.mk.injEq] at h
    obtain ⟨hobj, -⟩ := h
    obtain ⟨h1, h2, h3, h4, h5⟩ := init_fields w
      { element := el
        startOffset := jsOr cfg.startOffset 0
        distance := jsOr cfg.distance 200
        start := el.offsetTop - w.innerHeight + jsOr cfg.start 0
        stop := el.offsetTop + el.offsetHeight
        breakpoint := jsOr cfg.breakpoint 1024
        throttling := jsOr cfg.throttling 15
        cssTrans := jsOrBool cfg.cssTrans false
        registered := false }
    rw [hobj] at h1 h2 h3 h4 h5
    exact ⟨fun hn => by rw [h1]; simp [jsOr, hn],
      fun hn => by rw [h2]; simp [jsOr, hn],
      fun hn => by rw [h3]; simp [jsOr, hn],
      fun hn => by rw [h4]; simp [jsOr, hn],
      fun hn => by rw [h5]; simp [jsOrBool, hn]⟩

/-- Witness for C7: an element-less configuration throws; the default
configuration succeeds and yields all five defaults. -/
theorem ctor_error_iff_defaults_witness :
    (∃ e, ParallaxNew w0 cfgNoElement = .error e) ∧
    (∃ obj cfg2, ParallaxNew w0 cfgDefaults = .ok (obj, cfg2)) ∧
    objW.startOffset = 0 ∧ objW.distance = 200 ∧ objW.breakpoint = 1024 ∧
    objW.throttling = 15 ∧ objW.cssTrans = false := by
  have hd := (ctor_error_iff_defaults w0 cfgDefaults).2.2 elEx objW cfgW rfl
    parallaxNew_w0_eval
  exact ⟨(ctor_error_iff_defaults w0 cfgNoElement).1.mpr rfl,
    (ctor_error_iff_defaults w0 cfgDefaults).2.1 elEx rfl,
    hd.1 rfl, hd.2.1 rfl, hd.2.2.1 rfl, hd.2.2.2.1 rfl, hd.2.2.2.2 rfl⟩

/-- C1: the supplied stop bias is discarded — with a stop bias of 100 on
the example element the constructed stop bound is still 1400
(`offsetTop + offsetHeight`), identical to the bias-less construction
and different from the 1500 the bias would produce; line 35 of the
source overwrites the bias read on line 32. -/
theorem ctor_stop_bias_dropped :
    ((ParallaxNew w0 cfgStopBias).map fun r => r.1.stop) = .ok 1400 ∧
    ((ParallaxNew w0 cfgDefaults).map fun r => r.1.stop) = .ok 1400 ∧
    (1000 : ℚ) + 400 + 100 ≠ 1400 := by
  refine ⟨?_, ?_, by norm_num⟩ <;>
  · rw [parallaxNew_ok w0 _ elEx rfl]
    simp [Except.map, init_stop_eq, elEx]
    norm_num

/-- C1 (constructor bound with the start bias): for every configuration
carrying an element, the constructed start bound is
`offsetTop - innerHeight + startBias` with the bias defaulting to 0, and
the stop bound is `offsetTop + offsetHeight` regardless of the supplied
stop bias. -/
theorem ctor_bounds (w : Window) (cfg : Cfg) (el : Element)
    (obj : ParallaxObj) (cfg2 : Cfg)
    (hel : cfg.element = some el)
    (h : ParallaxNew w cfg = .ok (obj, cfg2)) :
    obj.start = el.offsetTop - w.innerHeight + jsOr cfg.start 0 ∧
    obj.stop = el.offsetTop + el.offsetHeight := by
  rw [parallaxNew_ok w cfg el hel] at h
  simp only [Except.ok.injEq, Prod.mk.injEq] at h
  obtain ⟨hobj, -⟩ := h
  rw [← hobj, init_start_eq, init_stop_eq]
  exact ⟨rfl, rfl⟩

/-- Witness for the constructor-bound theorem at the example input. -/
theorem ctor_bounds_witness :
    objW.start = elEx.offsetTop - w0.innerHeight + jsOr cfgDefaults.start 0 ∧
    objW.stop = elEx.offsetTop + elEx.offsetHeight :=
  ctor_bounds w0 cfgDefaults elEx objW cfgW rfl parallaxNew_w0_eval

/-- C10 counterexample: with `offsetTop = innerHeight = 800` and a start
bias of 0, a second construction from the mutated configuration yields
exactly the same bounds (start 0, stop 1200) as the first, and the
mutated configuration still holds the original bias 0. -/
theorem ctor_rerun_counterexample :
    ParallaxNew wSame cfgSame = .ok (obj1Same, cfg1Same) ∧
    ParallaxNew wSame cfg1Same = .ok (obj1Same, cfg1Same) ∧
    obj1Same.start = 0 ∧ obj1Same.stop = 1200 ∧
    cfgSame.start = some 0 ∧ cfg1Same.start = some 0 :=
  ⟨parallaxNew_wSame_eval, parallaxNew_wSame_eval2, rfl, rfl, rfl, rfl⟩

/-- C10 (amended): construction overwrites `cfg.start` and `cfg.stop` in
place with the computed absolute bounds; a second construction on the
same configuration treats the stored absolute start as the new bias, so
its start bound differs from the first by exactly
`offsetTop - innerHeight` (in particular it coincides with the first
when `offsetTop = innerHeight`), while the stop bound is recomputed to
the same value. -/
theorem ctor_mutates_cfg (w : Window) (cfg : Cfg) (el : Element)
    (obj : ParallaxObj) (cfg2 : Cfg)
    (hel : cfg.element = some el)
    (h : ParallaxNew w cfg = .ok (obj, cfg2)) :
    cfg2.start = some obj.start ∧ cfg2.stop = some obj.stop ∧
    cfg2.element = some el ∧
    (∀ obj2 cfg3, ParallaxNew w cfg2 = .ok (obj2, cfg3) →
      obj2.stop = obj.stop ∧
      obj2.start = obj.start + (el.offsetTop - w.innerHeight)) := by
  rw [parallaxNew_ok w cfg el hel] at h
  simp only [Except.ok.injEq, Prod.mk.injEq] at h
  obtain ⟨hobj, hcfg⟩ := h
  have hstart : obj.start = el.offsetTop - w.innerHeight + jsOr cfg.start 0 := by
    rw [← hobj, init_start_eq]
  have hstop : obj.stop = el.offsetTop + el.offsetHeight := by
    rw [← hobj, init_stop_eq]
  refine ⟨by rw [← hcfg, hstart], by rw [← hcfg, hstop], by rw [← hcfg]; exact hel, ?_⟩
  intro obj2 cfg3 h2
  have hel2 : cfg2.element = some el := by rw [← hcfg]; exact hel
  rw [parallaxNew_ok w cfg2 el hel2] at h2
  simp only [Except.ok.injEq, Prod.mk.injEq] at h2
  obtain ⟨hobj2, -⟩ := h2
  have hstart2 : cfg2.start = some obj.start := by rw [← hcfg, hstart]
  constructor
  · rw [← hobj2, init_stop_eq, hstop]
  · rw [← hobj2, init_start_eq]
    show el.offsetTop - w.innerHeight + jsOr cfg2.start 0 =
      obj.start + (el.offsetTop - w.innerHeight)
    rw [hstart2, jsOr_some_self]
    ring

/-- Witness for C10 (amended) at the example rerun input. -/
theorem ctor_mutates_cfg_witness :
    cfg1Same.start = some obj1Same.start ∧ cfg1Same.stop = some obj1Same.stop ∧
    cfg1Same.element = some elSame ∧
    (∀ obj2 cfg3, ParallaxNew wSame cfg1Same = .ok (obj2, cfg3) →
      obj2.stop = obj1Same.stop ∧
      obj2.start = obj1Same.start + (elSame.offsetTop - wSame.innerHeight)) :=
  ctor_mutates_cfg wSame cfgSame elSame obj1Same cfg1Same rfl parallaxNew_wSame_eval

end ParallaxJs
